import Mathlib

/-!
# Verification of the WooCommerce → Odoo order-synchronisation job

Shallow embedding of `supabase/functions/sync-orders/index.ts`.

Modelling conventions:
* JavaScript strings are Lean `String`s; string helpers whose JS versions are
  platform builtins (`trim`, `substring`, `replace` with a string pattern,
  `split`) are re-implemented structurally over the character list so that
  concrete runs reduce in the kernel.
* A JS value that may be `undefined`/`null` is an `Option`; JS truthiness of a
  numeric id (`null` and `0` are falsy) is `jsTruthyId`.
* The result of `parseFloat` on a source-supplied price/quantity is modelled by
  `JSNum`: either `nan` (non-numeric input) or a finite value as a rational.
* A thrown JS exception is `Except.error`; normal return is `Except.ok`.
* The remote Odoo service is modelled two ways, matching the two levels of the
  source.  The raw client methods (`OdooClient.search` / `OdooClient.create`,
  lines 118-202) are `clientSearch` / `clientCreate`, taking the remote
  response as an explicit `RemoteOutcome` input.  The business-logic layer
  (`getOrCreateCustomer`, `getOrCreateProduct`, `syncOrder`, lines 209-364)
  runs against an explicit ERP state `Erp`: `search_read` (fields `[id]`,
  limit 1) is a deterministic lookup in that state, and each `create` consumes
  one entry of a failure plan (`true` = the remote reported an error, so the
  call returned `null`).  Every remote call issued is also recorded in a trace
  of `RpcCall`s, so that theorems can speak about which calls were made.
-/

/-- The result of JavaScript `parseFloat` on a source-supplied value:
`nan` for non-numeric input, otherwise the parsed finite value. -/
inductive JSNum where
  | nan : JSNum
  | val (q : ℚ) : JSNum
deriving DecidableEq

/-- `sanitizePrice` (index.ts lines 35-38): `parseFloat`, `NaN ↦ 0`,
otherwise `Math.max(0, price)`. -/
def sanitizePrice : JSNum → ℚ
  | .nan => 0
  | .val p => max 0 p

/-- `sanitizeQuantity` (index.ts lines 40-43): `parseFloat`, `NaN` or `≤ 0`
defaults to `1`. -/
def sanitizeQuantity : JSNum → ℚ
  | .nan => 1
  | .val q => if q ≤ 0 then 1 else q

/-- JavaScript `String.prototype.trim` (strip leading and trailing
whitespace), structurally over the character list. -/
def jsTrim (s : String) : String :=
  String.mk (((s.data.dropWhile Char.isWhitespace).reverse.dropWhile
    Char.isWhitespace).reverse)

/-- JavaScript `s.substring(0, n)`, structurally over the character list. -/
def jsTake (s : String) (n : Nat) : String :=
  String.mk (s.data.take n)

/-- Replace the first occurrence of character `t` by `repl` — JavaScript
`String.prototype.replace` with a one-character string pattern, as used on
line 347 (`replace("T", " ")`, `replace("Z", "")`). -/
def replaceFirstChar : List Char → Char → List Char → List Char
  | [], _, _ => []
  | c :: cs, t, repl => if c = t then repl ++ cs else c :: replaceFirstChar cs t repl

/-- The prefix of a character list up to (excluding) the first occurrence of
`t` — JavaScript `s.split(t)[0]` for a one-character separator. -/
def takeUntilChar : List Char → Char → List Char
  | [], _ => []
  | c :: cs, t => if c = t then [] else c :: takeUntilChar cs t

/-- Date normalisation of index.ts line 347:
`rawDate.replace("T", " ").replace("Z", "").split(".")[0]`. -/
def normalizeDate (raw : String) : String :=
  String.mk (takeUntilChar (replaceFirstChar (replaceFirstChar raw.data 'T' [' ']) 'Z' []) '.')

/-- Split a character list at every occurrence of `t` (used to model the
email regular expression below). -/
def splitAtChar (t : Char) : List Char → List (List Char)
  | [] => [[]]
  | c :: cs =>
    if c = t then [] :: splitAtChar t cs
    else
      match splitAtChar t cs with
      | [] => [[c]]
      | g :: gs => (c :: g) :: gs

/-- `isValidEmail` (index.ts lines 31-33): the regular expression
`^[^\s@]+@[^\s@]+\.[^\s@]+$` accepts exactly the strings of the shape
`A@B` where `A` is a nonempty run of non-whitespace non-`@` characters and
`B` decomposes as `C.D` with `C`, `D` nonempty runs of non-whitespace
non-`@` characters (so `B` has a dot that is neither its first nor its last
character).  Splitting at `@` yields exactly two chunks iff the string has
exactly one `@`. -/
def isValidEmail (email : String) : Bool :=
  match splitAtChar '@' email.data with
  | [loc, dom] =>
    decide (loc ≠ []) && loc.all (fun c => !c.isWhitespace) &&
    dom.all (fun c => !c.isWhitespace) && ((dom.drop 1).dropLast.contains '.')
  | _ => false

/-- JS truthiness of a numeric-id value: `null`/`undefined` and `0` are
falsy; every other id is truthy. -/
def jsTruthyId : Option Nat → Bool
  | none => false
  | some n => n != 0

/-- JavaScript `x || dflt` for an optional string `x` (both `undefined` and
the empty string fall back to the default). -/
def jsOrStr (o : Option String) (dflt : String) : String :=
  match o with
  | some s => if s = "" then dflt else s
  | none => dflt

/-- JavaScript `(x || "").trim() || false` as used for the optional partner
fields (index.ts lines 239-242): a trimmed nonempty string, or the `false`
marker (modelled as `none`). -/
def trimmedOrFalse (o : Option String) : Option String :=
  let s := jsTrim (o.getD "")
  if s = "" then none else some s

/-- Billing contact of a WooCommerce order (`order.billing`). -/
structure Billing where
  email : Option String
  first_name : Option String
  last_name : Option String
  phone : Option String
  address_1 : Option String
  city : Option String
  postcode : Option String
deriving DecidableEq

/-- `{}` — the default used by `order.billing || {}` (index.ts line 210). -/
def emptyBilling : Billing :=
  { email := none, first_name := none, last_name := none, phone := none,
    address_1 := none, city := none, postcode := none }

/-- One WooCommerce line item. -/
structure LineItem where
  sku : Option String
  product_id : Option Nat
  name : Option String
  price : JSNum
  quantity : JSNum
deriving DecidableEq

/-- One WooCommerce order as consumed by the job. -/
structure WCOrder where
  id : Nat
  billing : Option Billing
  line_items : Option (List LineItem)
  date_created : Option String
deriving DecidableEq

/-- Field values of a `res.partner` create call (index.ts lines 236-245). -/
structure PartnerValues where
  name : String
  email : String
  phone : Option String
  street : Option String
  city : Option String
  zip : Option String
  country_id : Nat
  customer_rank : Nat
deriving DecidableEq

/-- Field values of a `product.product` create call (index.ts lines 277-283). -/
structure ProductValues where
  name : String
  list_price : ℚ
  default_code : String
  type : String
  sale_ok : Bool
deriving DecidableEq

/-- One order-line row (`lineData`, index.ts lines 326-331). -/
structure OrderLineData where
  product_id : Nat
  name : String
  product_uom_qty : ℚ
  price_unit : ℚ
deriving DecidableEq

/-- Field values of a `sale.order` create call (index.ts lines 349-356); each
order-line entry is the Odoo command triple `[0, 0, lineData]`. -/
structure SaleOrderValues where
  partner_id : Nat
  origin : String
  client_order_ref : String
  state : String
  order_line : List (Nat × Nat × OrderLineData)
  date_order : String
deriving DecidableEq

/-- A stored `res.partner` record: the id Odoo assigned plus the values it
was created with. -/
structure PartnerRec where
  id : Nat
  v : PartnerValues
deriving DecidableEq

/-- A stored `product.product` record. -/
structure ProductRec where
  id : Nat
  v : ProductValues
deriving DecidableEq

/-- A stored `sale.order` record. -/
structure SaleOrderRec where
  id : Nat
  v : SaleOrderValues
deriving DecidableEq

/-- The ERP-side state the deterministic remote semantics runs against.
`plan` drives the outcome of successive `create` calls: the head is consumed
by each call, `true` meaning the remote reported an error (the call returns
`null` and writes nothing); an exhausted plan means every remaining create
succeeds.  `nextId` is the next identifier the remote assigns. -/
structure Erp where
  partners : List PartnerRec
  products : List ProductRec
  orders : List SaleOrderRec
  nextId : Nat
  plan : List Bool
deriving DecidableEq

/-- `search_read` on `res.partner` with domain `[["email","=",email]]`,
fields `["id"]`, limit 1 (index.ts line 220 through the client of
lines 118-160). -/
def searchPartnerIds (e : Erp) (email : String) : List Nat :=
  ((e.partners.filter (fun p => p.v.email = email)).map (fun p => p.id)).take 1

/-- `search_read` on `product.product` with domain
`[["default_code","=",sku]]` (index.ts line 264). -/
def searchProductIds (e : Erp) (code : String) : List Nat :=
  ((e.products.filter (fun p => p.v.default_code = code)).map (fun p => p.id)).take 1

/-- `search_read` on `sale.order` with domain `[["origin","=",tag]]`
(index.ts line 297). -/
def searchSaleOrderIds (e : Erp) (tag : String) : List Nat :=
  ((e.orders.filter (fun o => o.v.origin = tag)).map (fun o => o.id)).take 1

/-- Consume the next entry of the create-failure plan. -/
def popPlan (e : Erp) : Bool × Erp :=
  match e.plan with
  | [] => (false, e)
  | b :: rest => (b, { e with plan := rest })

/-- Remote semantics of `create` on `res.partner`: on success the record is
stored under a fresh id; on remote failure the client returns `null`
(index.ts lines 163-202, 247). -/
def createPartnerRec (e : Erp) (v : PartnerValues) : Option Nat × Erp :=
  match popPlan e with
  | (true, e1) => (none, e1)
  | (false, e1) =>
    (some e1.nextId,
     { e1 with partners := e1.partners ++ [{ id := e1.nextId, v := v }],
               nextId := e1.nextId + 1 })

/-- Remote semantics of `create` on `product.product`. -/
def createProductRec (e : Erp) (v : ProductValues) : Option Nat × Erp :=
  match popPlan e with
  | (true, e1) => (none, e1)
  | (false, e1) =>
    (some e1.nextId,
     { e1 with products := e1.products ++ [{ id := e1.nextId, v := v }],
               nextId := e1.nextId + 1 })

/-- Remote semantics of `create` on `sale.order`. -/
def createSaleOrderRec (e : Erp) (v : SaleOrderValues) : Option Nat × Erp :=
  match popPlan e with
  | (true, e1) => (none, e1)
  | (false, e1) =>
    (some e1.nextId,
     { e1 with orders := e1.orders ++ [{ id := e1.nextId, v := v }],
               nextId := e1.nextId + 1 })

/-- One remote call issued through the Odoo client, as recorded in the trace.
The client of index.ts only ever issues `search_read` and `create`; it has no
delete or write method. -/
inductive RpcCall where
  | searchRead (model : String) (field : String) (value : String) : RpcCall
  | createPartner (v : PartnerValues) : RpcCall
  | createProduct (v : ProductValues) : RpcCall
  | createSaleOrder (v : SaleOrderValues) : RpcCall
deriving DecidableEq

/-- Is this trace entry a `create` call (on any model)? -/
def isCreateCall : RpcCall → Bool
  | .searchRead _ _ _ => false
  | _ => true

/-- Is this trace entry a `create` call on `sale.order`? -/
def isSaleCreate : RpcCall → Bool
  | .createSaleOrder _ => true
  | _ => false

/-- The placeholder email of index.ts line 215:
`no-email-wc${order.id}@placeholder.local`. -/
def placeholderEmail (oid : Nat) : String :=
  "no-email-wc" ++ toString oid ++ "@placeholder.local"

/-- The email `getOrCreateCustomer` works with (index.ts lines 210-217):
the trimmed billing email, or the deterministic placeholder when missing or
invalid. -/
def resolvedEmail (order : WCOrder) : String :=
  let billing := order.billing.getD emptyBilling
  let email := jsTrim (billing.email.getD "")
  if email = "" || !isValidEmail email then placeholderEmail order.id else email

/-- The customer display name (index.ts lines 227-234). -/
def customerFullName (order : WCOrder) : String :=
  let billing := order.billing.getD emptyBilling
  let firstName := jsTrim (billing.first_name.getD "")
  let lastName := jsTrim (billing.last_name.getD "")
  let fullName := jsTrim (firstName ++ " " ++ lastName)
  if fullName = "" then "Client WooCommerce #" ++ toString order.id else fullName

/-- The `res.partner` values assembled on index.ts lines 236-245. -/
def partnerValuesFor (order : WCOrder) : PartnerValues :=
  let billing := order.billing.getD emptyBilling
  { name := customerFullName order
    email := resolvedEmail order
    phone := trimmedOrFalse billing.phone
    street := trimmedOrFalse billing.address_1
    city := trimmedOrFalse billing.city
    zip := trimmedOrFalse billing.postcode
    country_id := 195
    customer_rank := 1 }

/-- `getOrCreateCustomer` (index.ts lines 209-252): resolve the email,
search by exact email, return the found id, otherwise create.  Returns the
resulting id (or `none`), the new ERP state, and the calls issued. -/
def getOrCreateCustomer (e : Erp) (order : WCOrder) :
    Option Nat × Erp × List RpcCall :=
  let email := resolvedEmail order
  match searchPartnerIds e email with
  | i :: _ => (some i, e, [.searchRead "res.partner" "email" email])
  | [] =>
    let r := createPartnerRec e (partnerValuesFor order)
    (r.1, r.2, [.searchRead "res.partner" "email" email,
                .createPartner (partnerValuesFor order)])

/-- The stock-keeping code used by `getOrCreateProduct`
(index.ts lines 255-261).  When the item's own code is missing or blank the
fallback is `` `WC-${item.product_id || item.name.substring(0, 20)}` ``; in
JavaScript, when `product_id` is absent (or `0`, which is falsy) and `name`
is also absent, `item.name.substring` throws a `TypeError` — modelled as
`Except.error`. -/
def resolvedSku (item : LineItem) : Except String String :=
  let sku := jsTrim (item.sku.getD "")
  if sku = "" then
    match item.product_id with
    | some pid =>
      if pid != 0 then .ok ("WC-" ++ toString pid)
      else
        match item.name with
        | some nm => .ok ("WC-" ++ jsTake nm 20)
        | none => .error "TypeError: item.name is undefined"
    | none =>
      match item.name with
      | some nm => .ok ("WC-" ++ jsTake nm 20)
      | none => .error "TypeError: item.name is undefined"
  else .ok sku

/-- The `product.product` values assembled on index.ts lines 277-283. -/
def productValuesFor (item : LineItem) (sku : String) : ProductValues :=
  { name := jsOrStr item.name "Produit sans nom"
    list_price := sanitizePrice item.price
    default_code := sku
    type := "consu"
    sale_ok := true }

/-- `getOrCreateProduct` (index.ts lines 254-290): determine the code (which
may throw), search by exact code, return the found id, otherwise create. -/
def getOrCreateProduct (e : Erp) (item : LineItem) :
    Except String (Option Nat) × Erp × List RpcCall :=
  match resolvedSku item with
  | .error msg => (.error msg, e, [])
  | .ok sku =>
    match searchProductIds e sku with
    | i :: _ => (.ok (some i), e, [.searchRead "product.product" "default_code" sku])
    | [] =>
      let r := createProductRec e (productValuesFor item sku)
      (.ok r.1, r.2, [.searchRead "product.product" "default_code" sku,
                      .createProduct (productValuesFor item sku)])

/-- The order-line row built on index.ts lines 326-331. -/
def lineDataFor (item : LineItem) (pid : Nat) : OrderLineData :=
  { product_id := pid
    name := jsOrStr item.name "Article"
    product_uom_qty := sanitizeQuantity item.quantity
    price_unit := sanitizePrice item.price }

/-- The line-item loop of index.ts lines 319-337: resolve each product in
order; a line whose product id is falsy is dropped; a thrown exception
aborts the loop (the state changes and calls made so far persist). -/
def processItems (e : Erp) :
    List LineItem → Except String (List (Nat × Nat × OrderLineData)) × Erp × List RpcCall
  | [] => (.ok [], e, [])
  | item :: rest =>
    match getOrCreateProduct e item with
    | (.error msg, e1, c1) => (.error msg, e1, c1)
    | (.ok pidOpt, e1, c1) =>
      let here :=
        match pidOpt with
        | some pid => if pid != 0 then [(0, 0, lineDataFor item pid)] else []
        | none => []
      match processItems e1 rest with
      | (.error msg, e2, c2) => (.error msg, e2, c1 ++ c2)
      | (.ok lines, e2, c2) => (.ok (here ++ lines), e2, c1 ++ c2)

/-- The idempotency key / provenance tag `` `WC-${wcId}` ``
(index.ts line 294). -/
def originTag (wcId : Nat) : String := "WC-" ++ toString wcId

/-- How `syncOrder` ended.  In the source the function returns `undefined` on
every non-throwing path; the outcome is recorded here so that theorems can
refer to it, but the driver (`runOrders` below) only distinguishes normal
return from a thrown exception, exactly as the source does. -/
inductive SyncOutcome where
  | alreadyImported : SyncOutcome
  | customerFailed : SyncOutcome
  | noLineItems : SyncOutcome
  | noValidLines : SyncOutcome
  | orderCreateFailed : SyncOutcome
  | created (oid : Nat) : SyncOutcome
deriving DecidableEq

/-- The `sale.order` values assembled on index.ts lines 344-356. -/
def saleOrderValuesFor (order : WCOrder) (now : String) (partnerId : Nat)
    (lines : List (Nat × Nat × OrderLineData)) : SaleOrderValues :=
  { partner_id := partnerId
    origin := originTag order.id
    client_order_ref := toString order.id
    state := "draft"
    order_line := lines
    date_order := normalizeDate (order.date_created.getD now) }

/-- `syncOrder` (index.ts lines 292-364).  `now` is the ISO timestamp
`new Date().toISOString()` would produce, used only when the order carries no
`date_created`. -/
def syncOrder (e : Erp) (now : String) (order : WCOrder) :
    Except String SyncOutcome × Erp × List RpcCall :=
  let tag := originTag order.id
  let c0 : List RpcCall := [.searchRead "sale.order" "origin" tag]
  if searchSaleOrderIds e tag ≠ [] then (.ok .alreadyImported, e, c0)
  else
    let r1 := getOrCreateCustomer e order
    let pidOpt := r1.1
    let e1 := r1.2.1
    let c1 := r1.2.2
    if !jsTruthyId pidOpt then (.ok .customerFailed, e1, c0 ++ c1)
    else
      match order.line_items with
      | none => (.ok .noLineItems, e1, c0 ++ c1)
      | some items =>
        if items.length = 0 then (.ok .noLineItems, e1, c0 ++ c1)
        else
          let r2 := processItems e1 items
          let e2 := r2.2.1
          let c2 := r2.2.2
          match r2.1 with
          | .error msg => (.error msg, e2, c0 ++ c1 ++ c2)
          | .ok lines =>
            if lines.length = 0 then (.ok .noValidLines, e2, c0 ++ c1 ++ c2)
            else
              let v := saleOrderValuesFor order now (pidOpt.getD 0) lines
              let r3 := createSaleOrderRec e2 v
              (if jsTruthyId r3.1 then .ok (.created (r3.1.getD 0))
               else .ok .orderCreateFailed,
               r3.2, c0 ++ c1 ++ c2 ++ [.createSaleOrder v])

/-- The decoded JSON body and transport metadata Odoo returns from
`/web/session/authenticate` (index.ts lines 85-104): whether `data.error`
was present (its extracted message, after the
`data.error.data?.message || 'Unknown error'` default), the truthy
`data.result.uid` if any, the optional `data.result.session_id`, and the
optional `session_id` cookie from the `set-cookie` header. -/
structure AuthResponse where
  error : Option String
  resultUid : Option Nat
  resultSessionId : Option String
  cookieSessionId : Option String
deriving DecidableEq

/-- The mutable session fields of `OdooClient` (index.ts lines 54-55). -/
structure OdooSession where
  uid : Option Nat
  sessionId : Option String
deriving DecidableEq

/-- `OdooClient.authenticate` (index.ts lines 65-115) as a function of the
remote response.  A thrown exception is `Except.error`; the `Except.ok`
branch is the `return true` of line 107, carrying the session fields the
method set.  `data.error` present ⇒ throw (lines 87-90); `uid` truthy ⇒
capture the uid, take `session_id` from the body and then let the cookie
override it (lines 92-107); otherwise throw `No UID` (line 110). -/
def authenticate (resp : AuthResponse) : Except String OdooSession :=
  match resp.error with
  | some msg => .error ("Odoo authentication failed: " ++ msg)
  | none =>
    match resp.resultUid with
    | some uid =>
      if uid != 0 then
        .ok { uid := some uid
              sessionId :=
                match resp.cookieSessionId with
                | some c => some c
                | none => resp.resultSessionId }
      else .error "Authentication failed: No UID returned"
    | none => .error "Authentication failed: No UID returned"

/-- What the remote side does when a client call is actually issued:
an application-error payload (`data.error`), a transport-level exception
from `fetch`/`res.json()`, or a normal result. -/
inductive RemoteOutcome (α : Type) where
  | errorPayload (msg : String) : RemoteOutcome α
  | netFail (msg : String) : RemoteOutcome α
  | result (r : α) : RemoteOutcome α
deriving DecidableEq

/-- The message of the guard on index.ts lines 119-121 and 164-166. -/
def notAuthMsg : String := "Not authenticated. Call authenticate() first."

/-- `OdooClient.search` (index.ts lines 118-160).  The second component of
the result records whether the remote call was issued at all: with no stored
session credential the method throws before any request is made; otherwise
an error payload or a transport exception degrades to `[]`. -/
def clientSearch (sess : OdooSession) (model : String)
    (domain : List (String × String)) (remote : RemoteOutcome (List Nat)) :
    Except String (List Nat) × Bool :=
  match sess.sessionId with
  | none => (.error notAuthMsg, false)
  | some _ =>
    match model, domain, remote with
    | _, _, .errorPayload _ => (.ok [], true)
    | _, _, .netFail _ => (.ok [], true)
    | _, _, .result rows => (.ok rows, true)

/-- `OdooClient.create` (index.ts lines 163-202), same conventions as
`clientSearch`; an error payload or transport exception degrades to
`null`. -/
def clientCreate {α : Type} (sess : OdooSession) (model : String)
    (values : α) (remote : RemoteOutcome (Option Nat)) :
    Except String (Option Nat) × Bool :=
  match sess.sessionId with
  | none => (.error notAuthMsg, false)
  | some _ =>
    match model, values, remote with
    | _, _, .errorPayload _ => (.ok none, true)
    | _, _, .netFail _ => (.ok none, true)
    | _, _, .result oid => (.ok oid, true)

/-- Result of the WooCommerce order fetch (index.ts lines 397-409): a JSON
list of orders, a non-ok HTTP status with its body text, or a thrown
transport/parse exception (caught by the outer handler as `Fatal Error`). -/
inductive FetchResult where
  | ok (orders : List WCOrder) : FetchResult
  | httpError (status : Nat) (txt : String) : FetchResult
  | thrown (msg : String) : FetchResult
deriving DecidableEq

/-- Body of an HTTP response produced by the handler: plain text, or the
JSON summary object of index.ts lines 438-443 with its four fields. -/
inductive RespBody where
  | text (s : String) : RespBody
  | json (status : String) (total : Nat) (processed : Nat) (errors : Nat) : RespBody
deriving DecidableEq

/-- Does the body carry the JSON summary object? -/
def isJsonBody : RespBody → Bool
  | .json _ _ _ _ => true
  | .text _ => false

/-- An HTTP response of the handler. -/
structure HttpResponse where
  status : Nat
  body : RespBody
deriving DecidableEq

/-- Everything one invocation of the handler depends on: the four credential
environment variables, the Odoo authentication response, the WooCommerce
fetch result, the ERP state, and the current ISO timestamp. -/
structure ServeEnv where
  wcCk : String
  wcCs : String
  odooUser : String
  odooPass : String
  auth : AuthResponse
  fetch : FetchResult
  erp : Erp
  nowIso : String
deriving DecidableEq

/-- The order loop of index.ts lines 421-432, returning the final ERP state,
`successCount` and `errorCount`.  `syncOrder` returns `undefined` on every
normal path, so `result === undefined` holds and `successCount` is
incremented whenever it does not throw; `errorCount` counts thrown
exceptions only. -/
def runOrders (e : Erp) (now : String) : List WCOrder → Erp × Nat × Nat
  | [] => (e, 0, 0)
  | o :: rest =>
    match syncOrder e now o with
    | (.ok _, e1, _) =>
      match runOrders e1 now rest with
      | (e2, s, er) => (e2, s + 1, er)
    | (.error _, e1, _) =>
      match runOrders e1 now rest with
      | (e2, s, er) => (e2, s, er + 1)

/-- The anonymous request handler passed to `serve`
(index.ts lines 370-454). -/
def handleRequest (env : ServeEnv) : HttpResponse :=
  if env.wcCk = "" || env.wcCs = "" then
    { status := 500, body := .text "Missing WooCommerce credentials" }
  else if env.odooUser = "" || env.odooPass = "" then
    { status := 500, body := .text "Missing Odoo credentials" }
  else
    match authenticate env.auth with
    | .error msg => { status := 500, body := .text ("Odoo authentication failed: " ++ msg) }
    | .ok _ =>
      match env.fetch with
      | .httpError _ txt => { status := 500, body := .text ("WooCommerce Error: " ++ txt) }
      | .thrown msg => { status := 500, body := .text ("Fatal Error: " ++ msg) }
      | .ok orders =>
        if orders.length = 0 then { status := 200, body := .text "No orders to sync" }
        else
          match runOrders env.erp env.nowIso orders with
          | (_, s, er) => { status := 200, body := .json "completed" orders.length s er }

/-- Did the run hit one of the run-fatal preconditions (missing credentials,
authentication failure, source-fetch failure)? -/
def runFatalB (env : ServeEnv) : Bool :=
  decide (env.wcCk = "") || decide (env.wcCs = "") ||
  decide (env.odooUser = "") || decide (env.odooPass = "") ||
  (match authenticate env.auth with
   | .error _ => true
   | .ok _ => false) ||
  (match env.fetch with
   | .ok _ => false
   | _ => true)

/-- The order list of a successful fetch. -/
def fetchOrders : FetchResult → List WCOrder
  | .ok os => os
  | _ => []

/-! ## Concrete scenario inputs used by witnesses and counterexamples -/

/-- An ERP with no records, fresh ids from 1, and every create succeeding. -/
def erpEmpty : Erp :=
  { partners := [], products := [], orders := [], nextId := 1, plan := [] }

/-- The ERP in which the first create call fails (the remote reports an
error and the client returns `null`) and later creates succeed. -/
def erpFirstCreateFails : Erp := { erpEmpty with plan := [true] }

/-- A well-formed line item: SKU `SKU1`, product reference 11, name
`Widget`, price 10, quantity 2. -/
def itemA : LineItem :=
  { sku := some "SKU1", product_id := some 11, name := some "Widget",
    price := .val 10, quantity := .val 2 }

/-- A billing contact with the valid email `a@b.com`. -/
def billingA : Billing :=
  { emptyBilling with email := some "a@b.com", first_name := some "Al",
                      last_name := some "Bo" }

/-- Order 501 with one well-formed line item. -/
def orderA : WCOrder :=
  { id := 501, billing := some billingA, line_items := some [itemA],
    date_created := some "2024-01-15T10:30:00.123Z" }

/-- An authentication response carrying a uid and a body session id. -/
def authOkResp : AuthResponse :=
  { error := none, resultUid := some 1, resultSessionId := some "sid",
    cookieSessionId := none }

/-- An authentication response carrying a uid but neither a body
`session_id` nor a `session_id` cookie. -/
def respNoSession : AuthResponse :=
  { error := none, resultUid := some 2, resultSessionId := none,
    cookieSessionId := none }

/-- A line item with no SKU, no product reference and no display name. -/
def itemNoRefs : LineItem :=
  { sku := none, product_id := none, name := none, price := .nan, quantity := .nan }

/-- A line item with no SKU and no name, but product reference 7. -/
def itemRefOnly : LineItem :=
  { sku := none, product_id := some 7, name := none, price := .nan, quantity := .nan }

/-- An invocation with credentials present, authentication succeeding and
the fetch returning order 501, against an ERP whose first create (the
customer create for order 501) fails. -/
def envPartnerCreateFails : ServeEnv :=
  { wcCk := "ck", wcCs := "cs", odooUser := "user", odooPass := "pass",
    auth := authOkResp, fetch := .ok [orderA], erp := erpFirstCreateFails,
    nowIso := "2024-01-01T00:00:00Z" }

/-- An invocation with credentials present, authentication succeeding and
the fetch succeeding with zero orders. -/
def envNoOrders : ServeEnv :=
  { wcCk := "ck", wcCs := "cs", odooUser := "user", odooPass := "pass",
    auth := authOkResp, fetch := .ok [], erp := erpEmpty,
    nowIso := "2024-01-01T00:00:00Z" }

/-- An invocation with credentials present, authentication succeeding and
the fetch succeeding with one order, against the empty ERP. -/
def envOneOrder : ServeEnv :=
  { wcCk := "ck", wcCs := "cs", odooUser := "user", odooPass := "pass",
    auth := authOkResp, fetch := .ok [orderA], erp := erpEmpty,
    nowIso := "2024-01-01T00:00:00Z" }

/-- The `sale.order` values the job assembles for `orderA` against the
empty ERP: customer id 1, product id 2, two units at price 10, normalized
date. -/
def saleValuesA : SaleOrderValues :=
  { partner_id := 1, origin := "WC-501", client_order_ref := "501", state := "draft",
    order_line := [(0, 0, { product_id := 2, name := "Widget",
                            product_uom_qty := 2, price_unit := 10 })],
    date_order := "2024-01-15 10:30:00" }

/-- An ERP already holding the order imported from source order 501. -/
def erpWithOrder501 : Erp :=
  { partners := [], products := [],
    orders := [{ id := 9, v := saleValuesA }], nextId := 10, plan := [] }

/-- Order 88: valid billing contact but no line-item list at all. -/
def orderNoItems : WCOrder :=
  { id := 88, billing := some billingA, line_items := none, date_created := none }

/-- State inclusion: every record stored in `a` is still stored in `b`.
The Odoo client of the source has no delete or write method, so every step
of the job can only grow the ERP state; the lemmas below establish this for
each embedded operation. -/
def erpLe (a b : Erp) : Prop :=
  (∀ p ∈ a.partners, p ∈ b.partners) ∧
  (∀ p ∈ a.products, p ∈ b.products) ∧
  (∀ o ∈ a.orders, o ∈ b.orders)

theorem erpLe_refl (a : Erp) : erpLe a a :=
  ⟨fun _ h => h, fun _ h => h, fun _ h => h⟩

theorem erpLe_trans {a b c : Erp} (h1 : erpLe a b) (h2 : erpLe b c) : erpLe a c :=
  ⟨fun p hp => h2.1 p (h1.1 p hp), fun p hp => h2.2.1 p (h1.2.1 p hp),
   fun o ho => h2.2.2 o (h1.2.2 o ho)⟩

theorem popPlan_le (e : Erp) : erpLe e (popPlan e).2 := by
  unfold popPlan
  cases e.plan with
  | nil => exact erpLe_refl e
  | cons b rest => exact ⟨fun _ h => h, fun _ h => h, fun _ h => h⟩

theorem createPartnerRec_le (e : Erp) (v : PartnerValues) :
    erpLe e (createPartnerRec e v).2 := by
  unfold createPartnerRec popPlan
  cases e.plan with
  | nil =>
    exact ⟨fun p h => List.mem_append_left _ h, fun _ h => h, fun _ h => h⟩
  | cons b rest =>
    cases b with
    | true => exact ⟨fun _ h => h, fun _ h => h, fun _ h => h⟩
    | false => exact ⟨fun p h => List.mem_append_left _ h, fun _ h => h, fun _ h => h⟩

theorem createProductRec_le (e : Erp) (v : ProductValues) :
    erpLe e (createProductRec e v).2 := by
  unfold createProductRec popPlan
  cases e.plan with
  | nil =>
    exact ⟨fun _ h => h, fun p h => List.mem_append_left _ h, fun _ h => h⟩
  | cons b rest =>
    cases b with
    | true => exact ⟨fun _ h => h, fun _ h => h, fun _ h => h⟩
    | false => exact ⟨fun _ h => h, fun p h => List.mem_append_left _ h, fun _ h => h⟩

theorem createSaleOrderRec_le (e : Erp) (v : SaleOrderValues) :
    erpLe e (createSaleOrderRec e v).2 := by
  unfold createSaleOrderRec popPlan
  cases e.plan with
  | nil =>
    exact ⟨fun _ h => h, fun _ h => h, fun o h => List.mem_append_left _ h⟩
  | cons b rest =>
    cases b with
    | true => exact ⟨fun _ h => h, fun _ h => h, fun _ h => h⟩
    | false => exact ⟨fun _ h => h, fun _ h => h, fun o h => List.mem_append_left _ h⟩

theorem getOrCreateProduct_le (e : Erp) (item : LineItem) :
    erpLe e (getOrCreateProduct e item).2.1 := by
  dsimp only [getOrCreateProduct]
  split
  · exact erpLe_refl e
  · split
    · exact erpLe_refl e
    · exact createProductRec_le e _

theorem processItems_le (e : Erp) (items : List LineItem) :
    erpLe e (processItems e items).2.1 := by
  induction items generalizing e with
  | nil => exact erpLe_refl e
  | cons item rest ih =>
    have h1 := getOrCreateProduct_le e item
    dsimp only [processItems]
    split
    · rename_i msg e1 c1 heq
      rw [heq] at h1
      exact h1
    · rename_i pidOpt e1 c1 heq
      rw [heq] at h1
      have h2 := ih e1
      split
      · rename_i msg e2 c2 heq2
        rw [heq2] at h2
        exact erpLe_trans h1 h2
      · rename_i lines e2 c2 heq2
        rw [heq2] at h2
        exact erpLe_trans h1 h2

/-- None of the calls `getOrCreateCustomer` issues is a `sale.order`
create. -/
theorem getOrCreateCustomer_no_sale (e : Erp) (order : WCOrder) :
    ∀ c ∈ (getOrCreateCustomer e order).2.2, isSaleCreate c = false := by
  intro c hc
  dsimp only [getOrCreateCustomer] at hc
  split at hc
  · simp only [List.mem_singleton] at hc
    subst hc
    rfl
  · simp only [List.mem_cons, List.not_mem_nil, or_false] at hc
    rcases hc with rfl | rfl
    · rfl
    · rfl

/-- None of the calls `getOrCreateProduct` issues is a `sale.order`
create. -/
theorem getOrCreateProduct_no_sale (e : Erp) (item : LineItem) :
    ∀ c ∈ (getOrCreateProduct e item).2.2, isSaleCreate c = false := by
  intro c hc
  dsimp only [getOrCreateProduct] at hc
  split at hc
  · simp at hc
  · split at hc
    · simp only [List.mem_singleton] at hc
      subst hc
      rfl
    · simp only [List.mem_cons, List.not_mem_nil, or_false] at hc
      rcases hc with rfl | rfl
      · rfl
      · rfl

/-- None of the calls the line-item loop issues is a `sale.order` create. -/
theorem processItems_no_sale (e : Erp) (items : List LineItem) :
    ∀ c ∈ (processItems e items).2.2, isSaleCreate c = false := by
  induction items generalizing e with
  | nil => intro c hc; simp [processItems] at hc
  | cons item rest ih =>
    intro c hc
    have h1 := getOrCreateProduct_no_sale e item
    dsimp only [processItems] at hc
    split at hc
    · rename_i msg e1 c1 heq
      rw [heq] at h1
      exact h1 c hc
    · rename_i pidOpt e1 c1 heq
      rw [heq] at h1
      have h2 := ih e1
      split at hc
      · rename_i msg e2 c2 heq2
        rw [heq2] at h2
        rcases List.mem_append.mp hc with h | h
        · exact h1 c h
        · exact h2 c h
      · rename_i lines e2 c2 heq2
        rw [heq2] at h2
        rcases List.mem_append.mp hc with h | h
        · exact h1 c h
        · exact h2 c h

/-- A truthy id is `some` of its default-projected value. -/
theorem jsTruthyId_eq_some {o : Option Nat} (h : jsTruthyId o = true) :
    o = some (o.getD 0) := by
  cases o with
  | none => simp [jsTruthyId] at h
  | some n => rfl

/-! ## Claims -/

/-- **C1** (code bug).  The claim says an order whose customer resolution
yields no id is counted as a failure in the run summary.  In the code,
`syncOrder` returns `undefined` on every non-throwing path — including the
failure paths — and the driver counts `result === undefined` as success, so
such an order lands in `processed` and not in `errors`.  Concretely: for a
run over exactly order 501 in which the customer create fails, the order's
outcome is `customerFailed`, yet the handler answers
`{status: completed, total: 1, processed: 1, errors: 0}`. -/
theorem c1_failure_counted_as_processed :
    (syncOrder erpFirstCreateFails "2024-01-01T00:00:00Z" orderA).1 =
      Except.ok SyncOutcome.customerFailed ∧
    handleRequest envPartnerCreateFails =
      { status := 200, body := RespBody.json "completed" 1 1 0 } := by
  constructor
  · rfl
  · rfl

/-- **C2** (counterexample).  The claim says `authenticate` returns a
success/failure value and does not throw on an ordinary authentication
rejection.  On a response carrying an error payload it throws
(`Except.error` in this embedding). -/
theorem c2_counterexample_auth_throws :
    authenticate { error := some "Access Denied", resultUid := none,
                   resultSessionId := none, cookieSessionId := none } =
      Except.error "Odoo authentication failed: Access Denied" := rfl

/-- **C2** (amended).  When the ERP reports an ordinary authentication
rejection — an error payload, or a response without a (truthy) uid —
`authenticate` throws an exception rather than returning a value; the run
driver catches it and aborts the run. -/
theorem c2_auth_rejection_throws (resp : AuthResponse) :
    (∀ m, resp.error = some m →
      authenticate resp = Except.error ("Odoo authentication failed: " ++ m)) ∧
    (resp.error = none → resp.resultUid.getD 0 = 0 →
      authenticate resp = Except.error "Authentication failed: No UID returned") := by
  constructor
  · rintro m hm
    simp [authenticate, hm]
  · rintro he hu
    cases hr : resp.resultUid with
    | none => simp [authenticate, he, hr]
    | some uid =>
      rw [hr] at hu
      simp only [Option.getD_some] at hu
      simp [authenticate, he, hr, hu]

/-- Witness for `c2_auth_rejection_throws` at concrete inputs. -/
theorem c2_auth_rejection_throws_witness :
    authenticate { error := some "Unknown error", resultUid := none,
                   resultSessionId := none, cookieSessionId := none } =
      Except.error "Odoo authentication failed: Unknown error" ∧
    authenticate { error := none, resultUid := none,
                   resultSessionId := none, cookieSessionId := none } =
      Except.error "Authentication failed: No UID returned" :=
  ⟨(c2_auth_rejection_throws _).1 "Unknown error" rfl,
   (c2_auth_rejection_throws _).2 rfl rfl⟩

/-- **C3** (counterexample).  The claim says every invocation with
credentials present, authentication succeeding and the fetch succeeding is
answered with HTTP 200 and the JSON summary object.  When the fetch
succeeds with zero orders the handler instead answers 200 with the plain
text `No orders to sync`. -/
theorem c3_counterexample_empty_fetch_text :
    handleRequest envNoOrders =
      { status := 200, body := RespBody.text "No orders to sync" } ∧
    isJsonBody (handleRequest envNoOrders).body = false := by
  constructor
  · rfl
  · rfl

/-- **C6.**  A non-numeric quantity, and any quantity ≤ 0, sanitizes to
exactly 1; a non-numeric or negative price sanitizes to exactly 0. -/
theorem c6_sanitize_defaults (v w : JSNum) :
    (v = JSNum.nan → sanitizeQuantity v = 1) ∧
    (∀ q : ℚ, v = JSNum.val q → q ≤ 0 → sanitizeQuantity v = 1) ∧
    (w = JSNum.nan → sanitizePrice w = 0) ∧
    (∀ p : ℚ, w = JSNum.val p → p < 0 → sanitizePrice w = 0) := by
  refine ⟨?_, ?_, ?_, ?_⟩
  · rintro rfl; rfl
  · rintro q rfl hq
    simp [sanitizeQuantity, hq]
  · rintro rfl; rfl
  · rintro p rfl hp
    simp [sanitizePrice, max_eq_left hp.le]

/-- Witness for `c6_sanitize_defaults` at concrete inputs. -/
theorem c6_sanitize_defaults_witness :
    sanitizeQuantity JSNum.nan = 1 ∧ sanitizeQuantity (JSNum.val (-2)) = 1 ∧
    sanitizePrice JSNum.nan = 0 ∧ sanitizePrice (JSNum.val (-3)) = 0 :=
  ⟨(c6_sanitize_defaults JSNum.nan JSNum.nan).1 rfl,
   (c6_sanitize_defaults (JSNum.val (-2)) JSNum.nan).2.1 (-2) rfl (by norm_num),
   (c6_sanitize_defaults JSNum.nan JSNum.nan).2.2.1 rfl,
   (c6_sanitize_defaults JSNum.nan (JSNum.val (-3))).2.2.2 (-3) rfl (by norm_num)⟩

/-- **C9.**  `authenticate` can report success while the session credential
remains unset — when the body has no `session_id` and no cookie is returned
— and in that state every `search` or `create` call throws
`Not authenticated` without issuing the remote call (the second component
records whether a remote request was made). -/
theorem c9_auth_without_session_credential :
    authenticate respNoSession = Except.ok { uid := some 2, sessionId := none } ∧
    (∀ (s : OdooSession) (model : String) (domain : List (String × String))
        (remote : RemoteOutcome (List Nat)), s.sessionId = none →
        clientSearch s model domain remote = (Except.error notAuthMsg, false)) ∧
    (∀ (α : Type) (s : OdooSession) (model : String) (values : α)
        (remote : RemoteOutcome (Option Nat)), s.sessionId = none →
        clientCreate s model values remote = (Except.error notAuthMsg, false)) := by
  refine ⟨rfl, ?_, ?_⟩
  · intro s model domain remote hs
    simp [clientSearch, hs]
  · intro α s model values remote hs
    simp [clientCreate, hs]

/-- Witness for `c9_auth_without_session_credential` at concrete inputs. -/
theorem c9_auth_without_session_credential_witness :
    clientSearch { uid := some 2, sessionId := none } "sale.order"
        [("origin", "WC-501")] (RemoteOutcome.result [9]) =
      (Except.error notAuthMsg, false) ∧
    clientCreate { uid := some 2, sessionId := none } "res.partner"
        (partnerValuesFor orderA) (RemoteOutcome.result (some 9)) =
      (Except.error notAuthMsg, false) :=
  ⟨c9_auth_without_session_credential.2.1 _ _ _ _ rfl,
   c9_auth_without_session_credential.2.2 _ _ _ _ _ rfl⟩

/-- **C4** (counterexample).  The claim says a missing stock-keeping code
never causes product resolution to fail, including when the product
reference and display name are both absent.  On an item with all three
absent, the fallback evaluates `item.name.substring(0, 20)` on `undefined`
and throws, so resolution fails with an exception. -/
theorem c4_counterexample_missing_refs_throw :
    (getOrCreateProduct erpEmpty itemNoRefs).1 =
      Except.error "TypeError: item.name is undefined" := rfl

/-- **C4** (amended).  For a line item whose stock-keeping code is missing
or empty, provided the source product reference is truthy or the display
name is present, resolution substitutes the deterministic fallback
`WC-<product reference>` or `WC-<first 20 characters of the name>` and does
not throw; when reference and name are both absent the fallback itself
throws. -/
theorem c4_fallback_sku (e : Erp) (item : LineItem)
    (hsku : jsTrim (item.sku.getD "") = "")
    (href : item.product_id.getD 0 ≠ 0 ∨ item.name.isSome = true) :
    (resolvedSku item = Except.ok ("WC-" ++ toString (item.product_id.getD 0)) ∨
     resolvedSku item = Except.ok ("WC-" ++ jsTake (item.name.getD "") 20)) ∧
    ∃ r, (getOrCreateProduct e item).1 = Except.ok r := by
  have hmain : resolvedSku item = Except.ok ("WC-" ++ toString (item.product_id.getD 0)) ∨
      resolvedSku item = Except.ok ("WC-" ++ jsTake (item.name.getD "") 20) := by
    cases hpid : item.product_id with
    | none =>
      rcases href with h | h
      · rw [hpid] at h
        simp at h
      · cases hnm : item.name with
        | none => rw [hnm] at h; simp at h
        | some nm =>
          right
          simp [resolvedSku, hsku, hpid, hnm]
    | some pid =>
      by_cases hz : pid = 0
      · subst hz
        rcases href with h | h
        · rw [hpid] at h
          simp at h
        · cases hnm : item.name with
          | none => rw [hnm] at h; simp at h
          | some nm =>
            right
            simp [resolvedSku, hsku, hpid, hnm]
      · left
        simp [resolvedSku, hsku, hpid, hz]
  refine ⟨hmain, ?_⟩
  have hok : ∃ s, resolvedSku item = Except.ok s := by
    rcases hmain with h | h
    · exact ⟨_, h⟩
    · exact ⟨_, h⟩
  obtain ⟨s, hs⟩ := hok
  dsimp only [getOrCreateProduct]
  rw [hs]
  dsimp only
  split
  · exact ⟨_, rfl⟩
  · exact ⟨_, rfl⟩

/-- Witness for `c4_fallback_sku` at a concrete input: SKU and name absent,
product reference 7. -/
theorem c4_fallback_sku_witness :
    resolvedSku itemRefOnly = Except.ok ("WC-" ++ toString (itemRefOnly.product_id.getD 0)) ∨
    resolvedSku itemRefOnly = Except.ok ("WC-" ++ jsTake (itemRefOnly.name.getD "") 20) :=
  (c4_fallback_sku erpEmpty itemRefOnly rfl (Or.inl (by decide))).1

/-- **C8.**  For every order with zero line items (a missing or empty
line-item sequence), no `create` call on the `sale.order` model is ever
issued while processing that order. -/
theorem c8_no_lines_no_sale_create (e : Erp) (now : String) (order : WCOrder)
    (h : order.line_items = none ∨ order.line_items = some []) :
    ∀ c ∈ (syncOrder e now order).2.2, isSaleCreate c = false := by
  intro c hc
  dsimp only [syncOrder] at hc
  have hcust := getOrCreateCustomer_no_sale e order
  by_cases hs : searchSaleOrderIds e (originTag order.id) ≠ []
  · rw [if_pos hs] at hc
    simp only [List.mem_singleton] at hc
    subst hc
    rfl
  · rw [if_neg hs] at hc
    by_cases hj : (!jsTruthyId (getOrCreateCustomer e order).1) = true
    · rw [if_pos hj] at hc
      simp only [List.mem_append, List.mem_singleton] at hc
      rcases hc with rfl | h1
      · rfl
      · exact hcust c h1
    · rw [if_neg hj] at hc
      rcases h with h | h
      · rw [h] at hc
        simp only [List.mem_append, List.mem_singleton] at hc
        rcases hc with rfl | h1
        · rfl
        · exact hcust c h1
      · rw [h] at hc
        simp only [List.length_nil, if_true, List.mem_append, List.mem_singleton] at hc
        rcases hc with rfl | h1
        · rfl
        · exact hcust c h1

/-- Witness for `c8_no_lines_no_sale_create`: an order with an empty
line-item list against the empty ERP; the idempotency search that heads its
trace is not a sale-order create. -/
theorem c8_no_lines_no_sale_create_witness :
    isSaleCreate (RpcCall.searchRead "sale.order" "origin" "WC-77") = false :=
  c8_no_lines_no_sale_create erpEmpty "2024-01-01T00:00:00Z"
    { id := 77, billing := some billingA, line_items := some [], date_created := none }
    (Or.inr rfl) (RpcCall.searchRead "sale.order" "origin" "WC-77") (by decide)

/-- **C3** (amended).  When credentials are present, authentication
succeeds and the fetch succeeds: if the fetched order list is nonempty the
handler answers 200 with the JSON summary object carrying status, total,
processed and error counts; if it is empty the handler answers 200 with the
plain text `No orders to sync`.  A non-200 plain-text error body is
returned exactly when a run-fatal precondition fails (missing credentials,
authentication failure, source-fetch failure). -/
theorem c3_response_shape (env : ServeEnv) :
    (runFatalB env = true →
       (handleRequest env).status = 500 ∧ isJsonBody (handleRequest env).body = false) ∧
    (runFatalB env = false →
       (handleRequest env).status = 200 ∧
       (fetchOrders env.fetch = [] →
          handleRequest env = { status := 200, body := RespBody.text "No orders to sync" }) ∧
       (fetchOrders env.fetch ≠ [] →
          handleRequest env =
            { status := 200,
              body := RespBody.json "completed" (fetchOrders env.fetch).length
                (runOrders env.erp env.nowIso (fetchOrders env.fetch)).2.1
                (runOrders env.erp env.nowIso (fetchOrders env.fetch)).2.2 })) := by
  constructor
  · intro hf
    unfold runFatalB at hf
    unfold handleRequest
    by_cases h1 : env.wcCk = ""
    · simp [h1, isJsonBody]
    · by_cases h2 : env.wcCs = ""
      · simp [h1, h2, isJsonBody]
      · by_cases h3 : env.odooUser = ""
        · simp [h1, h2, h3, isJsonBody]
        · by_cases h4 : env.odooPass = ""
          · simp [h1, h2, h3, h4, isJsonBody]
          · simp only [h1, h2, h3, h4, decide_False, Bool.false_or] at hf
            cases hauth : authenticate env.auth with
            | error msg => simp [h1, h2, h3, h4, hauth, isJsonBody]
            | ok sess =>
              rw [hauth] at hf
              cases hfetch : env.fetch with
              | ok os =>
                rw [hfetch] at hf
                simp at hf
              | httpError st txt => simp [h1, h2, h3, h4, hauth, hfetch, isJsonBody]
              | thrown m => simp [h1, h2, h3, h4, hauth, hfetch, isJsonBody]
  · intro hf
    unfold runFatalB at hf
    simp only [Bool.or_eq_false_iff, decide_eq_false_iff_not] at hf
    obtain ⟨⟨⟨⟨⟨h1, h2⟩, h3⟩, h4⟩, hauth0⟩, hfetch0⟩ := hf
    cases hauth : authenticate env.auth with
    | error msg => rw [hauth] at hauth0; simp at hauth0
    | ok sess =>
      cases hfetch : env.fetch with
      | httpError st txt => rw [hfetch] at hfetch0; simp at hfetch0
      | thrown m => rw [hfetch] at hfetch0; simp at hfetch0
      | ok os =>
        cases os with
        | nil =>
          refine ⟨?_, ?_, ?_⟩
          · simp [handleRequest, h1, h2, h3, h4, hauth, hfetch]
          · intro _
            simp [handleRequest, h1, h2, h3, h4, hauth, hfetch]
          · intro hne
            exfalso
            simp [fetchOrders] at hne
        | cons o os2 =>
          refine ⟨?_, ?_, ?_⟩
          · simp [handleRequest, h1, h2, h3, h4, hauth, hfetch]
          · intro hemp
            exfalso
            simp [fetchOrders] at hemp
          · intro _
            simp [handleRequest, h1, h2, h3, h4, hauth, hfetch, fetchOrders]

/-- Witness for `c3_response_shape`: a non-fatal invocation fetching one
order is answered 200 with the JSON summary. -/
theorem c3_response_shape_witness :
    (handleRequest envOneOrder).status = 200 ∧
    handleRequest envOneOrder =
      { status := 200,
        body := RespBody.json "completed" (fetchOrders envOneOrder.fetch).length
          (runOrders envOneOrder.erp envOneOrder.nowIso (fetchOrders envOneOrder.fetch)).2.1
          (runOrders envOneOrder.erp envOneOrder.nowIso (fetchOrders envOneOrder.fetch)).2.2 } :=
  ⟨((c3_response_shape envOneOrder).2 rfl).1,
   ((c3_response_shape envOneOrder).2 rfl).2.2 (by decide)⟩

/-- **C7.**  Every `sale.order` create call the job issues for an order
carries exactly: the id customer resolution returned, the provenance tag
`WC-<external id>`, a client reference equal to the external id as text,
state `draft`, precisely the order-line rows that survived line resolution,
and (when the order carries a source timestamp) the timestamp normalized by
replacing the first `T` with a space, dropping the first `Z` and truncating
at the first dot. -/
theorem c7_sale_order_record (e : Erp) (now : String) (order : WCOrder) (v : SaleOrderValues)
    (h : RpcCall.createSaleOrder v ∈ (syncOrder e now order).2.2) :
    v.origin = originTag order.id ∧
    v.client_order_ref = toString order.id ∧
    v.state = "draft" ∧
    (getOrCreateCustomer e order).1 = some v.partner_id ∧
    (∃ items, order.line_items = some items ∧
       (processItems ((getOrCreateCustomer e order).2.1) items).1 = Except.ok v.order_line) ∧
    (∀ ts, order.date_created = some ts → v.date_order = normalizeDate ts) := by
  dsimp only [syncOrder] at h
  have hcust := getOrCreateCustomer_no_sale e order
  by_cases hs : searchSaleOrderIds e (originTag order.id) ≠ []
  · rw [if_pos hs] at h
    simp at h
  · rw [if_neg hs] at h
    by_cases hj : (!jsTruthyId (getOrCreateCustomer e order).1) = true
    · rw [if_pos hj] at h
      simp only [List.mem_append, List.mem_singleton] at h
      rcases h with h | h
      · simp at h
      · have hzz := hcust _ h
        simp [isSaleCreate] at hzz
    · rw [if_neg hj] at h
      split at h
      · rename_i hli
        simp only [List.mem_append, List.mem_singleton] at h
        rcases h with h | h
        · simp at h
        · have hzz := hcust _ h
          simp [isSaleCreate] at hzz
      · rename_i items hli
        split at h
        · simp only [List.mem_append, List.mem_singleton] at h
          rcases h with h | h
          · simp at h
          · have hzz := hcust _ h
            simp [isSaleCreate] at hzz
        · rename_i hlen
          have hproc := processItems_no_sale ((getOrCreateCustomer e order).2.1) items
          split at h
          · rename_i msg hp
            simp only [List.mem_append, List.mem_singleton] at h
            rcases h with (h | h) | h
            · simp at h
            · have hzz := hcust _ h
              simp [isSaleCreate] at hzz
            · have hzz := hproc _ h
              simp [isSaleCreate] at hzz
          · rename_i lines hp
            split at h
            · simp only [List.mem_append, List.mem_singleton] at h
              rcases h with (h | h) | h
              · simp at h
              · have hzz := hcust _ h
                simp [isSaleCreate] at hzz
              · have hzz := hproc _ h
                simp [isSaleCreate] at hzz
            · rename_i hl2
              simp only [List.mem_append, List.mem_singleton] at h
              rcases h with ((h | h) | h) | h
              · simp at h
              · have hzz := hcust _ h
                simp [isSaleCreate] at hzz
              · have hzz := hproc _ h
                simp [isSaleCreate] at hzz
              · injection h with hv
                subst hv
                have hjj : jsTruthyId (getOrCreateCustomer e order).1 = true := by
                  simpa using hj
                refine ⟨rfl, rfl, rfl, jsTruthyId_eq_some hjj, ⟨items, hli, hp⟩, ?_⟩
                intro ts hts
                show normalizeDate (order.date_created.getD now) = normalizeDate ts
                rw [hts]
                rfl

/-- Witness for `c7_sale_order_record`: the create call issued for
`orderA` against the empty ERP carries `saleValuesA`. -/
theorem c7_sale_order_record_witness :
    saleValuesA.origin = originTag orderA.id ∧
    saleValuesA.client_order_ref = toString orderA.id ∧
    saleValuesA.state = "draft" ∧
    (getOrCreateCustomer erpEmpty orderA).1 = some saleValuesA.partner_id ∧
    saleValuesA.date_order = normalizeDate "2024-01-15T10:30:00.123Z" := by
  obtain ⟨h1, h2, h3, h4, h5, h6⟩ :=
    c7_sale_order_record erpEmpty "2024-01-01T00:00:00Z" orderA saleValuesA (by decide)
  exact ⟨h1, h2, h3, h4, h6 "2024-01-15T10:30:00.123Z" rfl⟩

/-- A `sale.order` create that returned a truthy id stored the record. -/
theorem createSaleOrderRec_truthy (e : Erp) (v : SaleOrderValues)
    (h : jsTruthyId (createSaleOrderRec e v).1 = true) :
    ∃ r ∈ (createSaleOrderRec e v).2.orders, r.v = v := by
  dsimp only [createSaleOrderRec] at h ⊢
  split at h
  · rename_i e1 heq
    simp [jsTruthyId] at h
  · rename_i e1 heq
    exact ⟨{ id := e1.nextId, v := v }, by simp, rfl⟩

/-- The idempotency search finds something when a stored order carries the
tag. -/
theorem searchSaleOrderIds_ne_nil {e : Erp} {tag : String}
    (h : ∃ r ∈ e.orders, r.v.origin = tag) : searchSaleOrderIds e tag ≠ [] := by
  obtain ⟨r, hr, ho⟩ := h
  unfold searchSaleOrderIds
  have hm : r ∈ e.orders.filter (fun o => o.v.origin = tag) :=
    List.mem_filter.mpr ⟨hr, by simp [ho]⟩
  cases hF : e.orders.filter (fun o => o.v.origin = tag) with
  | nil => rw [hF] at hm; simp at hm
  | cons a tl => simp

/-- When the idempotency search matches, `syncOrder` stops with the state
unchanged after the single search call. -/
theorem syncOrder_stops (e : Erp) (now : String) (order : WCOrder)
    (h : searchSaleOrderIds e (originTag order.id) ≠ []) :
    syncOrder e now order =
      (Except.ok SyncOutcome.alreadyImported, e,
       [RpcCall.searchRead "sale.order" "origin" (originTag order.id)]) := by
  dsimp only [syncOrder]
  rw [if_pos h]

/-- A run of `syncOrder` that reports `created` leaves an order carrying
the idempotency tag in the resulting state. -/
theorem syncOrder_created_mem (e : Erp) (now : String) (order : WCOrder) (oid : Nat)
    (h : (syncOrder e now order).1 = Except.ok (SyncOutcome.created oid)) :
    ∃ r ∈ ((syncOrder e now order).2.1).orders, r.v.origin = originTag order.id := by
  rcases hsync : syncOrder e now order with ⟨res, st, tr⟩
  rw [hsync] at h
  dsimp only at h ⊢
  dsimp only [syncOrder] at hsync
  split at hsync
  · simp only [Prod.mk.injEq] at hsync
    obtain ⟨hres, hst, htr⟩ := hsync
    subst hres
    simp at h
  · split at hsync
    · simp only [Prod.mk.injEq] at hsync
      obtain ⟨hres, hst, htr⟩ := hsync
      subst hres
      simp at h
    · split at hsync
      · simp only [Prod.mk.injEq] at hsync
        obtain ⟨hres, hst, htr⟩ := hsync
        subst hres
        simp at h
      · rename_i items hli
        split at hsync
        · simp only [Prod.mk.injEq] at hsync
          obtain ⟨hres, hst, htr⟩ := hsync
          subst hres
          simp at h
        · split at hsync
          · simp only [Prod.mk.injEq] at hsync
            obtain ⟨hres, hst, htr⟩ := hsync
            subst hres
            simp at h
          · rename_i lines hp
            split at hsync
            · simp only [Prod.mk.injEq] at hsync
              obtain ⟨hres, hst, htr⟩ := hsync
              subst hres
              simp at h
            · simp only [Prod.mk.injEq] at hsync
              obtain ⟨hres, hst, htr⟩ := hsync
              subst hres
              by_cases hcr : jsTruthyId
                  (createSaleOrderRec (processItems ((getOrCreateCustomer e order).2.1) items).2.1
                    (saleOrderValuesFor order now ((getOrCreateCustomer e order).1.getD 0) lines)).1 = true
              · obtain ⟨r, hr, hv⟩ := createSaleOrderRec_truthy _ _ hcr
                rw [← hst]
                exact ⟨r, hr, by rw [hv]; rfl⟩
              · rw [if_neg hcr] at h
                simp at h

/-- **C5.**  When the idempotency-key search matches, the import stops at
once: the result is exactly the `already imported` outcome, the state is
unchanged, and the trace is the single search call — no create call of any
kind.  Consequently a second run of the protocol on an order whose first
run created the ERP order performs no writes: it stops the same way on the
state the first run produced. -/
theorem c5_already_imported_stops (e : Erp) (now now2 : String) (order : WCOrder) :
    (searchSaleOrderIds e (originTag order.id) ≠ [] →
       syncOrder e now order =
         (Except.ok SyncOutcome.alreadyImported, e,
          [RpcCall.searchRead "sale.order" "origin" (originTag order.id)])) ∧
    (∀ oid, (syncOrder e now order).1 = Except.ok (SyncOutcome.created oid) →
       syncOrder ((syncOrder e now order).2.1) now2 order =
         (Except.ok SyncOutcome.alreadyImported, (syncOrder e now order).2.1,
          [RpcCall.searchRead "sale.order" "origin" (originTag order.id)])) := by
  constructor
  · intro hs
    exact syncOrder_stops e now order hs
  · intro oid h
    exact syncOrder_stops _ now2 order
      (searchSaleOrderIds_ne_nil (syncOrder_created_mem e now order oid h))

/-- When no customer matches the resolved email and the next create
succeeds, `getOrCreateCustomer` creates the partner record and issues
exactly a search followed by a create. -/
theorem getOrCreateCustomer_creates (e : Erp) (order : WCOrder)
    (hnocust : searchPartnerIds e (resolvedEmail order) = [])
    (hplan : e.plan.headD false = false) :
    (getOrCreateCustomer e order).1 = some e.nextId ∧
    ((getOrCreateCustomer e order).2.1).partners =
      e.partners ++ [{ id := e.nextId, v := partnerValuesFor order }] ∧
    ((getOrCreateCustomer e order).2.1).products = e.products ∧
    ((getOrCreateCustomer e order).2.1).orders = e.orders ∧
    (getOrCreateCustomer e order).2.2 =
      [RpcCall.searchRead "res.partner" "email" (resolvedEmail order),
       RpcCall.createPartner (partnerValuesFor order)] := by
  dsimp only [getOrCreateCustomer]
  rw [hnocust]
  dsimp only [createPartnerRec, popPlan]
  cases hp : e.plan with
  | nil => exact ⟨rfl, rfl, rfl, rfl, rfl⟩
  | cons b rest =>
    rw [hp] at hplan
    simp only [List.headD_cons] at hplan
    subst hplan
    exact ⟨rfl, rfl, rfl, rfl, rfl⟩

/-- **C10.**  Per-order processing is not atomic with respect to its abort
paths: for an order that is not already imported and whose billing contact
matches no existing customer, the customer create call is issued before the
line-presence check is ever reached (it is in the trace even when the order
is abandoned for having no line items), the created customer record is in
the final state on every abort path (no line items, zero surviving lines,
failed order create), and the final state retains every record of the
initial state — no abort path deletes or undoes anything. -/
theorem c10_customer_persists_on_abort (e : Erp) (now : String) (order : WCOrder)
    (hno : searchSaleOrderIds e (originTag order.id) = [])
    (hnocust : searchPartnerIds e (resolvedEmail order) = [])
    (hplan : e.plan.headD false = false)
    (hnz : e.nextId ≠ 0)
    (habort : (syncOrder e now order).1 = Except.ok SyncOutcome.noLineItems ∨
              (syncOrder e now order).1 = Except.ok SyncOutcome.noValidLines ∨
              (syncOrder e now order).1 = Except.ok SyncOutcome.orderCreateFailed) :
    RpcCall.createPartner (partnerValuesFor order) ∈ (syncOrder e now order).2.2 ∧
    { id := e.nextId, v := partnerValuesFor order } ∈ ((syncOrder e now order).2.1).partners ∧
    erpLe e ((syncOrder e now order).2.1) := by
  obtain ⟨hg1, hg2, hg3, hg4, hg5⟩ := getOrCreateCustomer_creates e order hnocust hplan
  have hLe1 : erpLe e ((getOrCreateCustomer e order).2.1) := by
    refine ⟨?_, ?_, ?_⟩
    · intro p hp
      rw [hg2]
      exact List.mem_append_left _ hp
    · intro p hp
      rw [hg3]
      exact hp
    · intro o ho
      rw [hg4]
      exact ho
  have hmem1 : { id := e.nextId, v := partnerValuesFor order } ∈
      ((getOrCreateCustomer e order).2.1).partners := by
    rw [hg2]
    simp
  have hjz : (!jsTruthyId (getOrCreateCustomer e order).1) = false := by
    rw [hg1]
    simp [jsTruthyId, hnz]
  rcases hsync : syncOrder e now order with ⟨res, st, tr⟩
  dsimp only
  dsimp only [syncOrder] at hsync
  rw [hno] at hsync
  rw [if_neg (by simp)] at hsync
  rw [hjz] at hsync
  rw [if_neg (by simp)] at hsync
  split at hsync
  · -- line_items = none
    simp only [Prod.mk.injEq] at hsync
    obtain ⟨hres, hst, htr⟩ := hsync
    subst hst
    subst htr
    refine ⟨?_, hmem1, hLe1⟩
    rw [hg5]
    simp
  · rename_i items hli
    split at hsync
    · -- zero items
      simp only [Prod.mk.injEq] at hsync
      obtain ⟨hres, hst, htr⟩ := hsync
      subst hst
      subst htr
      refine ⟨?_, hmem1, hLe1⟩
      rw [hg5]
      simp
    · rename_i hlen
      have hLe2 := processItems_le ((getOrCreateCustomer e order).2.1) items
      split at hsync
      · -- processItems threw
        rename_i msg hp
        simp only [Prod.mk.injEq] at hsync
        obtain ⟨hres, hst, htr⟩ := hsync
        subst hst
        subst htr
        refine ⟨?_, hLe2.1 _ hmem1, erpLe_trans hLe1 hLe2⟩
        rw [hg5]
        simp
      · rename_i lines hp
        split at hsync
        · -- zero surviving lines
          simp only [Prod.mk.injEq] at hsync
          obtain ⟨hres, hst, htr⟩ := hsync
          subst hst
          subst htr
          refine ⟨?_, hLe2.1 _ hmem1, erpLe_trans hLe1 hLe2⟩
          rw [hg5]
          simp
        · rename_i hl2
          have hLe3 := createSaleOrderRec_le
            ((processItems ((getOrCreateCustomer e order).2.1) items).2.1)
            (saleOrderValuesFor order now ((getOrCreateCustomer e order).1.getD 0) lines)
          simp only [Prod.mk.injEq] at hsync
          obtain ⟨hres, hst, htr⟩ := hsync
          subst hst
          subst htr
          refine ⟨?_, (erpLe_trans hLe2 hLe3).1 _ hmem1,
            erpLe_trans hLe1 (erpLe_trans hLe2 hLe3)⟩
          rw [hg5]
          simp

/-- Witness for `c5_already_imported_stops`: order 501 against an ERP that
already holds its import, and a second run after a successful first run on
the empty ERP. -/
theorem c5_already_imported_stops_witness :
    syncOrder erpWithOrder501 "2024-01-01T00:00:00Z" orderA =
      (Except.ok SyncOutcome.alreadyImported, erpWithOrder501,
       [RpcCall.searchRead "sale.order" "origin" (originTag orderA.id)]) ∧
    syncOrder ((syncOrder erpEmpty "2024-01-01T00:00:00Z" orderA).2.1)
        "2024-02-02T00:00:00Z" orderA =
      (Except.ok SyncOutcome.alreadyImported,
       (syncOrder erpEmpty "2024-01-01T00:00:00Z" orderA).2.1,
       [RpcCall.searchRead "sale.order" "origin" (originTag orderA.id)]) :=
  ⟨(c5_already_imported_stops erpWithOrder501 "2024-01-01T00:00:00Z"
      "2024-02-02T00:00:00Z" orderA).1 (by decide),
   (c5_already_imported_stops erpEmpty "2024-01-01T00:00:00Z"
      "2024-02-02T00:00:00Z" orderA).2 3 rfl⟩

/-- Witness for `c10_customer_persists_on_abort`: order 88 (no line items)
against the empty ERP. -/
theorem c10_customer_persists_on_abort_witness :
    RpcCall.createPartner (partnerValuesFor orderNoItems) ∈
      (syncOrder erpEmpty "2024-01-01T00:00:00Z" orderNoItems).2.2 ∧
    { id := erpEmpty.nextId, v := partnerValuesFor orderNoItems } ∈
      ((syncOrder erpEmpty "2024-01-01T00:00:00Z" orderNoItems).2.1).partners ∧
    erpLe erpEmpty ((syncOrder erpEmpty "2024-01-01T00:00:00Z" orderNoItems).2.1) :=
  c10_customer_persists_on_abort erpEmpty "2024-01-01T00:00:00Z" orderNoItems
    rfl rfl rfl (by decide) (Or.inl rfl)
